import Mathlib

/-!
Verification of the camera QR-scan session (src/src/components/QRCodeScanner.tsx)
and the admin route guard (AdminRoute) of the challengequest-frontend repository.

The component is embedded as a pure state machine.  React `useState` fields become
record fields; each async browser/engine interaction is parametrised by an explicit
outcome value (the environment); JavaScript execution order is modelled faithfully:
an `async` function invoked without `await` runs synchronously up to its first
`await` and its continuation runs only after the current synchronous job finishes.
-/

namespace QRScan

/-- Substring helper over character lists: listStartsWith n h is true when n is an
initial segment of h.  Models the JavaScript String.prototype.includes probe used
by the component, written over List Char so the kernel can evaluate it. -/
def listStartsWith : List Char → List Char → Bool
  | [], _ => true
  | _ :: _, [] => false
  | a :: as, b :: bs => a == b && listStartsWith as bs

/-- Substring test: strContains hay needle models hay.includes(needle) from the
source (lines 130-138, 150-153). -/
def strContains (hay needle : String) : Bool :=
  go needle.toList hay.toList
where
  go (n h : List Char) : Bool :=
    listStartsWith n h ||
      match h with
      | [] => false
      | _ :: t => go n t

/-- Component state: the five useState/useRef cells of QRCodeScanner
(lines 15-19) plus the `open` prop driving the dialog. scannerRef holds the
Html5Qrcode instance when one has been created. -/
structure ScannerState where
  openProp : Bool
  scannerRef : Option Unit
  isScanning : Bool
  error : Option String
  permissionError : Bool
  isRequestingPermission : Bool
  deriving DecidableEq, Repr

/-- Initial state of the component: dialog closed, no scanner, no error
(useState initialisers, lines 15-19). -/
def initialState : ScannerState :=
  { openProp := false, scannerRef := none, isScanning := false,
    error := none, permissionError := false, isRequestingPermission := false }

/-- Session phases of the spec (section 3) as a view on the component state. -/
inductive Phase where
  | Idle
  | RequestingPermission
  | Scanning
  | Error
  | PermissionDenied
  deriving DecidableEq, Repr

/-- Phase map: the dialog being closed is Idle; otherwise the requesting flag,
the scanning flag, the permission-error flag and the error message determine the
phase, mirroring how the rendered UI distinguishes the states. -/
def phase (s : ScannerState) : Phase :=
  if s.openProp = false then .Idle
  else if s.isRequestingPermission then .RequestingPermission
  else if s.isScanning then .Scanning
  else if s.permissionError then .PermissionDenied
  else if s.error.isSome then .Error
  else .Idle

/-- Outcome of the navigator.permissions.query call (lines 46-59):
the capability may be missing, may resolve with a state string, or may throw
(the catch at line 55 continues to getUserMedia). -/
inductive QueryOutcome where
  | unavailable
  | result (state : String)
  | failure
  deriving DecidableEq, Repr

/-- Outcome of the navigator.mediaDevices.getUserMedia call (lines 63-65):
it resolves with a stream, rejects with an Error carrying a name and message,
or rejects with a non-Error value (the instanceof check at line 74 fails). -/
inductive GumOutcome where
  | ok
  | err (name : String) (msg : String)
  | errNonError
  deriving DecidableEq, Repr

/-- Environment for one run of checkCameraPermissions: whether the capture API
exists (line 41), the permission-query outcome and the getUserMedia outcome. -/
structure CameraEnv where
  mediaDevicesAvailable : Bool
  query : QueryOutcome
  gum : GumOutcome
  deriving DecidableEq, Repr

/-- Result of one run of checkCameraPermissions: the new component state, the
returned boolean, how many getUserMedia acquisition attempts were made, and
whether the probe stream tracks were stopped (line 68). -/
structure PermCheckResult where
  state : ScannerState
  granted : Bool
  gumCalls : Nat
  probeReleased : Bool
  deriving DecidableEq, Repr

/-- Error message set when the permission query reports denied (line 52). -/
def deniedQueryMsg : String :=
  "Camera permission is denied. Please enable camera access in your browser settings and try again."

/-- Error message for NotAllowedError/PermissionDeniedError from getUserMedia (line 77). -/
def permNeededMsg : String :=
  "Camera permission is required to scan QR codes. Please allow camera access and try again."

/-- Error message for NotFoundError/DevicesNotFoundError (line 80). -/
def noCameraMsg : String :=
  "No camera found. Please connect a camera and try again."

/-- Error message for NotReadableError/TrackStartError (line 83). -/
def inUseMsg : String :=
  "Camera is already in use by another application. Please close other apps using the camera and try again."

/-- Fallback when the getUserMedia Error has an empty message (line 86). -/
def accessFallbackMsg : String :=
  "Failed to access camera. Please check your browser settings."

/-- Message when getUserMedia rejects with a non-Error value (line 91). -/
def nonErrorMsg : String :=
  "Failed to access camera. Please ensure camera permissions are granted."

/-- Message thrown when the capture API is missing (line 42); it reaches the
generic else branch of the catch as err.message. -/
def noApiMsg : String :=
  "Camera API is not supported in this browser"

/-- True when the permission query is available and resolved with state denied
(lines 46-54). -/
def queryDenied (env : CameraEnv) : Bool :=
  match env.query with
  | .result st => st == "denied"
  | _ => false

/-- Classification of a getUserMedia rejection by Error name (lines 74-88);
an empty message falls back per the JavaScript `err.message ||` idiom. -/
def classifyGumError (name msg : String) (s : ScannerState) : ScannerState :=
  if name == "NotAllowedError" || name == "PermissionDeniedError" then
    { s with permissionError := true, error := some permNeededMsg }
  else if name == "NotFoundError" || name == "DevicesNotFoundError" then
    { s with error := some noCameraMsg }
  else if name == "NotReadableError" || name == "TrackStartError" then
    { s with error := some inUseMsg }
  else
    { s with error := some (if msg == "" then accessFallbackMsg else msg) }

/-- checkCameraPermissions (lines 38-94).  Throws nothing to the caller: all
failures are converted to state updates and a false return.  gumCalls counts
getUserMedia invocations; probeReleased records the unconditional stopping of
the probe stream tracks on a successful acquisition (line 68). -/
def checkCameraPermissions (env : CameraEnv) (s : ScannerState) : PermCheckResult :=
  if env.mediaDevicesAvailable = false then
    { state := { s with isRequestingPermission := false, error := some noApiMsg },
      granted := false, gumCalls := 0, probeReleased := false }
  else if queryDenied env then
    { state := { s with permissionError := true, error := some deniedQueryMsg },
      granted := false, gumCalls := 0, probeReleased := false }
  else
    match env.gum with
    | .ok =>
        { state := { s with isRequestingPermission := false },
          granted := true, gumCalls := 1, probeReleased := true }
    | .err name msg =>
        { state := classifyGumError name msg { s with isRequestingPermission := false },
          granted := false, gumCalls := 1, probeReleased := false }
    | .errNonError =>
        { state := { s with isRequestingPermission := false, error := some nonErrorMsg },
          granted := false, gumCalls := 1, probeReleased := false }

/-- Outcome of the awaited html5QrCode.start call (lines 114-145): it resolves,
rejects with an Error (name and message), or rejects with a non-Error value. -/
inductive StartOutcome where
  | ok
  | fail (name : String) (msg : String)
  | failNonError
  deriving DecidableEq, Repr

/-- Message set by the generic else branches of the start catch (lines 156, 159). -/
def startFallbackMsg : String :=
  "Failed to start camera. Please ensure camera permissions are granted."

/-- Message set when the start failure is permission related (line 152). -/
def startPermMsg : String :=
  "Camera permission is required. Please allow camera access and try again."

/-- Classification of a startup-channel (structured) failure of
html5QrCode.start, from the catch block at lines 146-162. -/
def classifyStartError (name msg : String) (s : ScannerState) : ScannerState :=
  if name == "NotAllowedError" || strContains msg "Permission" || strContains msg "permission" then
    { s with permissionError := true, error := some startPermMsg }
  else if strContains msg "camera" || strContains msg "Camera" then
    { s with error := some msg }
  else
    { s with error := some startFallbackMsg }

/-- startScanning (lines 103-163): clears errors, sets the scanning flag,
creates the Html5Qrcode instance into scannerRef (line 112, before the awaited
start), then either the start resolves or its failure is classified and the
scanning flag dropped (line 161).  The scannerRef assignment survives a failed
start because it happens before the await. -/
def startScanning (o : StartOutcome) (s : ScannerState) : ScannerState :=
  let s1 : ScannerState :=
    { s with error := none, permissionError := false, isScanning := true,
             scannerRef := some () }
  match o with
  | .ok => s1
  | .fail name msg => { classifyStartError name msg s1 with isScanning := false }
  | .failNonError => { s1 with error := some startFallbackMsg, isScanning := false }

/-- Message set by the frame-error channel when the text looks permission
related (line 140). -/
def framePermMsg : String :=
  "Camera permission was denied. Please allow camera access and try again."

/-- The benign frame-message filter of lines 130-133: messages containing any
of these substrings are ignored as the expected no-code-found steady state. -/
def benignFrameMessage (m : String) : Bool :=
  strContains m "NotFoundException" || strContains m "No QR code found" ||
    strContains m "QR code parse error" || strContains m "No MultiFormat Readers"

/-- The permission-keyword probe of lines 135-138 applied to a frame-error
message. -/
def permKeywordFrameMessage (m : String) : Bool :=
  strContains m "Permission" || strContains m "camera" ||
    strContains m "NotAllowedError" || strContains m "PermissionDeniedError"

/-- The unstructured frame-error callback handed to html5QrCode.start
(lines 127-144).  A non-benign message that matches the permission keywords
moves the session to the permission-denied error state; every other message
leaves the state untouched (the inner if has no else branch). -/
def onFrameError (m : String) (s : ScannerState) : ScannerState :=
  if benignFrameMessage m = false then
    if permKeywordFrameMessage m then
      { s with permissionError := true, error := some framePermMsg, isScanning := false }
    else s
  else s

/-- Behaviour of the engine during stopScanning: both awaited calls succeed,
scanner.stop() throws, or stop succeeds and scanner.clear() throws. -/
inductive StopOutcome where
  | ok
  | stopFailed
  | clearFailed
  deriving DecidableEq, Repr

/-- Result of one run of stopScanning: result is an Except because the claim is
about stopScanning never throwing; releasedStream records whether the engine
stream held by the scanner was torn down (scanner.stop() succeeded). -/
structure StopRun where
  result : Except String ScannerState
  releasedStream : Bool
  deriving Repr

/-- stopScanning (lines 165-176): when a scanner instance exists it awaits
stop() then clear() then nulls the ref, a failure of either being caught and
logged (so the ref survives a failure); in every case the scanning flag is
cleared afterwards.  The function never propagates an exception. -/
def stopScanningE (o : StopOutcome) (s : ScannerState) : StopRun :=
  match s.scannerRef with
  | none => { result := .ok { s with isScanning := false }, releasedStream := false }
  | some _ =>
      match o with
      | .ok =>
          { result := .ok { s with scannerRef := none, isScanning := false },
            releasedStream := true }
      | .stopFailed =>
          { result := .ok { s with isScanning := false }, releasedStream := false }
      | .clearFailed =>
          { result := .ok { s with isScanning := false }, releasedStream := true }

/-- The state after stopScanning (extracting the always-ok result). -/
def stopScanningRun (o : StopOutcome) (s : ScannerState) : ScannerState :=
  match (stopScanningE o s).result with
  | .ok s1 => s1
  | .error _ => s

/-- Closing the session: the dialog open prop goes false and the useEffect else
branch (lines 27-29) runs stopScanning. -/
def closeSession (o : StopOutcome) (s : ScannerState) : ScannerState :=
  stopScanningRun o { s with openProp := false }

/-- checkPermissionsAndStart (lines 96-101): run the permission check and, when
it granted, start scanning.  Returns the new state and the number of
getUserMedia acquisition attempts performed. -/
def checkPermissionsAndStart (cam : CameraEnv) (so : StartOutcome)
    (s : ScannerState) : ScannerState × Nat :=
  let r := checkCameraPermissions cam s
  if r.granted then (startScanning so r.state, r.gumCalls) else (r.state, r.gumCalls)

/-- Environment outcomes for one UI step: the camera environment, the engine
start outcome and the engine stop behaviour. -/
structure Drivers where
  cam : CameraEnv
  start : StartOutcome
  stop : StopOutcome
  deriving DecidableEq, Repr

/-- User-interface events reaching the component: the parent toggling the open
prop (the useEffect of lines 21-35 fires only when the prop changes), the Start
Camera button (rendered only under the guard of line 262) and the Retry button
(rendered only when an error is shown, line 247, disabled while requesting). -/
inductive UiEvent where
  | setOpen (b : Bool)
  | clickStart
  | clickRetry
  deriving DecidableEq, Repr

/-- One UI step.  Opening resets error state (lines 23-26) and runs
checkPermissionsAndStart; a setOpen that does not change the prop fires no
effect; closing runs stopScanning; the two buttons run their handlers only when
the render guards of lines 247-267 make them reachable. -/
def stepUi (d : Drivers) (e : UiEvent) (s : ScannerState) : ScannerState × Nat :=
  match e with
  | .setOpen true =>
      if s.openProp then (s, 0)
      else
        checkPermissionsAndStart d.cam d.start
          { s with openProp := true, error := none, permissionError := false }
  | .setOpen false =>
      if s.openProp = false then (s, 0)
      else (stopScanningRun d.stop { s with openProp := false }, 0)
  | .clickStart =>
      if s.openProp && s.error.isNone && !s.isScanning && !s.isRequestingPermission then
        checkPermissionsAndStart d.cam d.start s
      else (s, 0)
  | .clickRetry =>
      if s.openProp && s.error.isSome && !s.isRequestingPermission then
        checkPermissionsAndStart d.cam d.start
          { s with error := none, permissionError := false }
      else (s, 0)

/-- Run a list of UI events, accumulating the number of getUserMedia
acquisition attempts. -/
def runUi (d : Drivers) (evs : List UiEvent) (s : ScannerState) : ScannerState × Nat :=
  match evs with
  | [] => (s, 0)
  | e :: rest =>
      let p := stepUi d e s
      let q := runUi d rest p.1
      (q.1, p.2 + q.2)

/-- Reachability invariant of the component: while the scanning flag is set no
error is recorded (every setError in the source is paired with the scanning
flag being false), a closed dialog is never scanning (the useEffect stops
scanning whenever the prop goes false), and the permission-error flag is only
ever raised together with an error message (every setPermissionError true in
the source is adjacent to a setError). -/
def Inv (s : ScannerState) : Prop :=
  (s.isScanning = true → s.error = none) ∧ (s.openProp = false → s.isScanning = false) ∧
    (s.permissionError = true → s.error.isSome = true)

/-- Observable events of the decode-success path: invocation of scanner.stop(),
the success callback to the caller, the close callback, resolution of the stop
promise (stream teardown complete) and the invocation of scanner.clear(). -/
inductive Ev where
  | invokeStop
  | notifySuccess (t : String)
  | notifyClose
  | releaseComplete
  | invokeClear
  deriving DecidableEq, Repr

/-- Synchronous events of one run of the decode-success callback
(lines 121-126): stopScanning() is invoked without await, so its body runs up
to the invocation of scanner.stop() and suspends at the await; then
onScanSuccess and onClose run in the same synchronous job. -/
def decodeHandlerEvents (t : String) : List Ev :=
  [Ev.invokeStop, Ev.notifySuccess t, Ev.notifyClose]

/-- Event trace of the success path.  texts are the decode callbacks the engine
delivers before scanner.stop() resolves (the engine contract only guarantees
callback quiescence after stop() resolves).  JavaScript await continuations are
microtasks, so the resolution of stop() (stream release complete) and the
subsequent invocation of clear() come after every synchronous handler run. -/
def successTrace (texts : List String) : List Ev :=
  (texts.map decodeHandlerEvents).flatten ++ [Ev.releaseComplete, Ev.invokeClear]

/-- Predicate picking the success notifications out of a trace. -/
def isNotify : Ev → Bool
  | .notifySuccess _ => true
  | _ => false

/-- Interleaved run for a close() arriving while getUserMedia is in flight,
against a compliant environment (query passes, acquisition resolves ok, engine
start succeeds).  Steps, in JavaScript order: the dialog opens and resets the
error state (lines 23-26); checkCameraPermissions runs to the requesting flag
(line 62) and suspends awaiting getUserMedia; the dialog closes and the
useEffect else branch runs stopScanning (no scanner yet); getUserMedia then
resolves, the probe tracks are stopped and the requesting flag drops
(lines 67-70); the continuation of checkPermissionsAndStart (lines 97-100)
checks only the returned boolean — there is no staleness or open-prop guard —
and invokes startScanning. -/
def lateResolutionRun (s0 : ScannerState) : ScannerState :=
  let s1 : ScannerState := { s0 with openProp := true, error := none, permissionError := false }
  let s2 : ScannerState := { s1 with isRequestingPermission := true }
  let s3 : ScannerState := stopScanningRun .ok { s2 with openProp := false }
  let s4 : ScannerState := { s3 with isRequestingPermission := false }
  startScanning .ok s4

end QRScan

namespace AdminGuard

/-- Profile returned by apiClient.getProfile, restricted to the field the guard
inspects. -/
structure User where
  isAdmin : Bool
  deriving DecidableEq, Repr

/-- Environment of one run of verifyAdmin: the stored auth token and the result
of the profile fetch. -/
structure AdminEnv where
  token : Option String
  profileResult : Except Unit User
  deriving Repr

/-- Navigation targets the guard can redirect to. -/
inductive NavTarget where
  | login
  | dashboard
  deriving DecidableEq, Repr

/-- Observable outcome of the guard: the checking flag (children render only
once it is false), any navigation performed, and whether the stored token was
cleared. -/
structure AdminState where
  checking : Bool
  navigatedTo : Option NavTarget
  tokenCleared : Bool
  deriving DecidableEq, Repr

/-- verifyAdmin (src/unnamed/part_000, lines 16-43): no token redirects to
login; a failed profile fetch clears the token and redirects to login; a
non-admin profile redirects to the dashboard; only a successful fetch with
isAdmin true drops the checking flag. -/
def verifyAdmin (env : AdminEnv) : AdminState :=
  match env.token with
  | none => { checking := true, navigatedTo := some .login, tokenCleared := false }
  | some _ =>
      match env.profileResult with
      | .ok u =>
          if u.isAdmin = false then
            { checking := true, navigatedTo := some .dashboard, tokenCleared := false }
          else
            { checking := false, navigatedTo := none, tokenCleared := false }
      | .error _ =>
          { checking := true, navigatedTo := some .login, tokenCleared := true }

/-- The render of AdminRoute (lines 45-56): children are rendered exactly when
the checking flag has been dropped; otherwise the spinner shows. -/
def rendersChildren (st : AdminState) : Bool :=
  !st.checking

end AdminGuard

namespace QRScan

/-- Helper: a state is in the Scanning phase exactly when the dialog is open,
no permission request is pending and the scanning flag is set. -/
theorem phase_scanning_fields {s : ScannerState} (h : phase s = Phase.Scanning) :
    s.openProp = true ∧ s.isScanning = true ∧ s.isRequestingPermission = false := by
  rcases s with ⟨o, r, sc, e, p, q⟩
  cases o <;> cases sc <;> cases q <;> cases p <;> cases e <;> simp_all [phase]

/-- Helper: the initial component state satisfies the reachability invariant. -/
theorem inv_initial : Inv initialState := by
  refine ⟨?_, ?_, ?_⟩ <;> simp [initialState]

/-- Helper: checkPermissionsAndStart establishes the reachability invariant
whenever it is entered with the dialog open and the scanning flag down, which
is how every caller in the component reaches it. -/
theorem inv_checkPermissionsAndStart (cam : CameraEnv) (so : StartOutcome)
    (s : ScannerState) (ho : s.openProp = true) (hsc : s.isScanning = false) :
    Inv (checkPermissionsAndStart cam so s).1 := by
  rcases s with ⟨o, r, sc, e, p, q⟩
  simp only at ho hsc
  subst ho; subst hsc
  rcases cam with ⟨ma, qu, gu⟩
  unfold checkPermissionsAndStart checkCameraPermissions
  cases ma <;> cases gu <;> cases so <;>
    simp [Inv, queryDenied, startScanning, classifyStartError, classifyGumError] <;>
    repeat' split <;> simp_all

/-- Helper: every UI step preserves the reachability invariant, so Inv holds in
every state reachable from the initial one. -/
theorem inv_step (d : Drivers) (e : UiEvent) (s : ScannerState) (h : Inv s) :
    Inv (stepUi d e s).1 := by
  obtain ⟨h1, h2, h3⟩ := h
  cases e with
  | setOpen b =>
      cases b
      · simp only [stepUi]
        split
        · exact ⟨h1, h2, h3⟩
        · rcases hr : s.scannerRef with _ | u <;> cases hst : d.stop <;>
            simp_all [stopScanningRun, stopScanningE, Inv]
      · simp only [stepUi]
        split
        · exact ⟨h1, h2, h3⟩
        · next hc =>
            apply inv_checkPermissionsAndStart <;> simp
            exact h2 (by revert hc; cases s.openProp <;> simp)
  | clickStart =>
      simp only [stepUi]
      split
      · next hc =>
          simp only [Bool.and_eq_true, Bool.not_eq_true'] at hc
          exact inv_checkPermissionsAndStart d.cam d.start s hc.1.1.1 hc.1.2
      · exact ⟨h1, h2, h3⟩
  | clickRetry =>
      simp only [stepUi]
      split
      · next hc =>
          simp only [Bool.and_eq_true, Bool.not_eq_true'] at hc
          apply inv_checkPermissionsAndStart <;> simp
          · exact hc.1.1
          · by_contra hsc
            simp only [Bool.not_eq_false] at hsc
            have := h1 hsc
            simp [this] at hc
      · exact ⟨h1, h2, h3⟩

/-- Claim C1 (counterexample): the claim says the camera stream is fully
released, the release awaited to completion, before onScanSuccess reaches the
caller.  In the decode-success trace for payload ABC123 the resolution of
scanner.stop (stream release complete) sits at position 3, after the success
notification at position 1: the success handler invokes stopScanning without
await, so the await continuation of stop runs only after onScanSuccess and
onClose have returned, and no pair of positions has the release before the
notification. -/
theorem release_after_notify_counterexample :
    successTrace ["ABC123"] =
      [Ev.invokeStop, Ev.notifySuccess "ABC123", Ev.notifyClose,
       Ev.releaseComplete, Ev.invokeClear] ∧
    ¬ ∃ i j : Fin 5, i < j ∧ (successTrace ["ABC123"]).get i = Ev.releaseComplete ∧
        (successTrace ["ABC123"]).get j = Ev.notifySuccess "ABC123" := by decide

/-- Claim C1 (amended): on a successful decode the stop of the decode loop is
invoked before the success notification fires, for every sequence of delivered
decode events and every notification position in the trace; the release is
initiated, but not awaited to completion, before onScanSuccess reaches the
caller. -/
theorem stop_invoked_before_notify (texts : List String) (i : Nat) (t : String)
    (h : (successTrace texts)[i]? = some (Ev.notifySuccess t)) :
    (successTrace texts)[0]? = some Ev.invokeStop ∧ 0 < i := by
  cases texts with
  | nil =>
      exfalso
      rcases i with _ | _ | i <;> simp [successTrace] at h
  | cons t0 rest =>
      constructor
      · simp [successTrace, decodeHandlerEvents]
      · rcases i with _ | i
        · simp [successTrace, decodeHandlerEvents] at h
        · exact Nat.succ_pos i

/-- Witness for the amended claim C1 at the concrete single-decode trace. -/
theorem stop_invoked_before_notify_witness :
    (successTrace ["ABC123"])[0]? = some Ev.invokeStop ∧ 0 < 1 :=
  stop_invoked_before_notify ["ABC123"] 1 "ABC123" (by decide)

/-- Claim C2 (counterexample): the claim says that if close is called while an
acquisition request is in flight and the acquisition later resolves
successfully, no decode loop is started on the stale session.  Running the
interleaving in which the dialog closes between the suspension at getUserMedia
and its successful resolution leaves the session closed yet scanning, with a
live scanner instance: checkPermissionsAndStart has no staleness guard, so the
decode loop is started on the stale session and its stream handle outlives the
session. -/
theorem close_during_acquisition_starts_stale_loop :
    (lateResolutionRun initialState).openProp = false ∧
    (lateResolutionRun initialState).isScanning = true ∧
    (lateResolutionRun initialState).scannerRef = some () := by decide

/-- Claim C2 (amended): the probe stream is always released immediately when a
granted acquisition resolves, even when close was called in the meantime, but a
close during an in-flight acquisition does not prevent the decode loop from
starting on the stale session; that stale loop and its stream are torn down
only by the next stopScanning run, which does release the stream and clear the
scanner handle. -/
theorem stream_release_amended (cam : CameraEnv) (s : ScannerState)
    (h : (checkCameraPermissions cam s).granted = true) :
    (checkCameraPermissions cam s).probeReleased = true ∧
    (lateResolutionRun initialState).isScanning = true ∧
    (stopScanningE StopOutcome.ok (lateResolutionRun initialState)).releasedStream = true ∧
    (stopScanningRun StopOutcome.ok (lateResolutionRun initialState)).scannerRef = none := by
  refine ⟨?_, by decide, by decide, by decide⟩
  unfold checkCameraPermissions at h ⊢
  split at h
  · simp at h
  · split at h
    · simp at h
    · cases hg : cam.gum <;> simp_all

/-- Witness for the amended claim C2 at a compliant environment. -/
theorem stream_release_amended_witness :
    (checkCameraPermissions ⟨true, QueryOutcome.unavailable, GumOutcome.ok⟩
        initialState).probeReleased = true ∧
    (lateResolutionRun initialState).isScanning = true ∧
    (stopScanningE StopOutcome.ok (lateResolutionRun initialState)).releasedStream = true ∧
    (stopScanningRun StopOutcome.ok (lateResolutionRun initialState)).scannerRef = none :=
  stream_release_amended ⟨true, QueryOutcome.unavailable, GumOutcome.ok⟩ initialState
    (by decide)

/-- Claim C3: open is idempotent.  For every sequence of open calls issued
while the session is in the Scanning phase, whether through the open prop (the
useEffect fires only when the prop changes) or the Start Camera button (not
rendered while scanning), the state is unchanged and zero further getUserMedia
acquisitions are performed. -/
theorem open_idempotent_while_scanning (d : Drivers) (s : ScannerState)
    (hs : phase s = Phase.Scanning) (evs : List UiEvent)
    (hevs : ∀ e ∈ evs, e = UiEvent.setOpen true ∨ e = UiEvent.clickStart) :
    runUi d evs s = (s, 0) := by
  obtain ⟨ho, hsc, -⟩ := phase_scanning_fields hs
  clear hs
  induction evs with
  | nil => rfl
  | cons e rest ih =>
      have hstep : stepUi d e s = (s, 0) := by
        rcases hevs e (List.mem_cons_self e rest) with rfl | rfl
        · simp [stepUi, ho]
        · simp [stepUi, hsc]
      have hrest : runUi d rest s = (s, 0) :=
        ih (fun e' he' => hevs e' (List.mem_cons_of_mem _ he'))
      simp [runUi, hstep, hrest]

/-- Witness for claim C3: two redundant open events on a concrete scanning
state change nothing and perform zero acquisitions. -/
theorem open_idempotent_while_scanning_witness :
    runUi ⟨⟨true, QueryOutcome.unavailable, GumOutcome.ok⟩, StartOutcome.ok, StopOutcome.ok⟩
      [UiEvent.setOpen true, UiEvent.clickStart]
      { openProp := true, scannerRef := some (), isScanning := true, error := none,
        permissionError := false, isRequestingPermission := false } =
      ({ openProp := true, scannerRef := some (), isScanning := true, error := none,
         permissionError := false, isRequestingPermission := false }, 0) :=
  open_idempotent_while_scanning _ _ (by decide) _ (by decide)

/-- Claim C4 (counterexample): the claim says onScanSuccess is invoked at most
once per opened session.  The success handler has no single-shot guard and the
engine contract only guarantees callback quiescence after scanner.stop
resolves, which the handler does not await; a session in which the engine
delivers two decode events before stop resolves notifies the caller twice. -/
theorem double_decode_double_notify :
    (successTrace ["A", "B"]).countP isNotify = 2 ∧
    ¬ ((successTrace ["A", "B"]).countP isNotify ≤ 1) := by decide

/-- Claim C4 (amended): onScanSuccess is invoked exactly once per decode event
the engine delivers before scanner.stop resolves, hence at most once only when
the engine delivers at most one such event; each invocation receives exactly
the text the decoding engine produced and is immediately followed by onClose. -/
theorem single_decode_exact_payload (t : String) :
    (successTrace [t]).countP isNotify = 1 ∧
    (successTrace [t])[1]? = some (Ev.notifySuccess t) ∧
    (successTrace [t])[2]? = some Ev.notifyClose := by
  refine ⟨?_, rfl, rfl⟩
  rfl

/-- Claim C5: in every reachable state (the invariant Inv holds initially and
is preserved by every step), a retry in the Idle or Scanning phase is a no-op
with no state change and no acquisition, while a retry from the Error or
PermissionDenied phase clears the recorded error and the permission flag and
re-runs exactly the open sequence. -/
theorem retry_transitions (d : Drivers) (s : ScannerState) (hinv : Inv s) :
    ((phase s = Phase.Idle ∨ phase s = Phase.Scanning) →
        stepUi d UiEvent.clickRetry s = (s, 0)) ∧
    ((phase s = Phase.Error ∨ phase s = Phase.PermissionDenied) →
        stepUi d UiEvent.clickRetry s =
          checkPermissionsAndStart d.cam d.start
            { s with error := none, permissionError := false } ∧
        stepUi d UiEvent.clickRetry s =
          stepUi d (UiEvent.setOpen true) { s with openProp := false }) := by
  rcases s with ⟨o, r, sc, e, p, q⟩
  rcases hinv with ⟨h1, h2, h3⟩
  cases o <;> cases sc <;> cases q <;> cases p <;> cases e <;>
    simp_all [phase, stepUi, Inv]

/-- Witness for claim C5: a retry from a concrete Error-phase state re-runs the
open sequence on the error-cleared state. -/
theorem retry_transitions_witness :
    stepUi ⟨⟨true, QueryOutcome.unavailable, GumOutcome.ok⟩, StartOutcome.ok, StopOutcome.ok⟩
        UiEvent.clickRetry
        { openProp := true, scannerRef := none, isScanning := false,
          error := some "boom", permissionError := false, isRequestingPermission := false } =
      checkPermissionsAndStart ⟨true, QueryOutcome.unavailable, GumOutcome.ok⟩ StartOutcome.ok
        { openProp := true, scannerRef := none, isScanning := false,
          error := none, permissionError := false, isRequestingPermission := false } :=
  ((retry_transitions _ _ ⟨by decide, by decide, by decide⟩).2 (Or.inl (by decide))).1

/-- Claim C6 (counterexample): the claim says any frame-level failure other
than a benign no-code result or a permission loss moves the session to the
generic Error phase, classified identically to the structured startup channel.
A frame-level message carrying neither a benign substring nor a permission
keyword leaves the state completely unchanged, still in the Scanning phase,
because the inner conditional of the frame-error callback has no else branch;
the same failure arriving on the structured startup channel does produce the
Error phase, so the two channels classify it differently. -/
theorem frame_error_ignored_counterexample :
    onFrameError "video decoder crashed"
        { openProp := true, scannerRef := some (), isScanning := true,
          error := none, permissionError := false, isRequestingPermission := false } =
      { openProp := true, scannerRef := some (), isScanning := true,
        error := none, permissionError := false, isRequestingPermission := false } ∧
    phase (onFrameError "video decoder crashed"
        { openProp := true, scannerRef := some (), isScanning := true,
          error := none, permissionError := false, isRequestingPermission := false }) =
      Phase.Scanning ∧
    phase (startScanning (StartOutcome.fail "SomeError" "video decoder crashed")
        { openProp := true, scannerRef := none, isScanning := false,
          error := none, permissionError := false, isRequestingPermission := false }) =
      Phase.Error := by decide

/-- Claim C6 (amended): a non-benign frame-level failure is classified by the
permission keywords alone: with a keyword match the session records the
permission-denied error and stops scanning, and without one the failure is
silently ignored with no state change; the generic Error phase is produced
only by the structured startup channel. -/
theorem frame_error_classification (m : String) (s : ScannerState)
    (hb : benignFrameMessage m = false) :
    (permKeywordFrameMessage m = false → onFrameError m s = s) ∧
    (permKeywordFrameMessage m = true →
      onFrameError m s =
        { s with permissionError := true, error := some framePermMsg,
                 isScanning := false }) := by
  constructor <;> intro hk <;> simp [onFrameError, hb, hk]

/-- Witness for the amended claim C6 at a concrete ignored message. -/
theorem frame_error_classification_witness :
    onFrameError "video decoder crashed" initialState = initialState :=
  (frame_error_classification "video decoder crashed" initialState (by decide)).1 (by decide)

/-- Claim C7: when the non-blocking permission query reports denied, the
session moves to the PermissionDenied phase carrying the descriptive error and
performs zero getUserMedia acquisition attempts. -/
theorem query_denied_no_acquisition (cam : CameraEnv) (s : ScannerState)
    (hm : cam.mediaDevicesAvailable = true) (hq : queryDenied cam = true)
    (ho : s.openProp = true) (hr : s.isRequestingPermission = false)
    (hsc : s.isScanning = false) :
    checkCameraPermissions cam s =
      { state := { s with permissionError := true, error := some deniedQueryMsg },
        granted := false, gumCalls := 0, probeReleased := false } ∧
    phase (checkCameraPermissions cam s).state = Phase.PermissionDenied ∧
    (checkCameraPermissions cam s).gumCalls = 0 := by
  have h1 : checkCameraPermissions cam s =
      { state := { s with permissionError := true, error := some deniedQueryMsg },
        granted := false, gumCalls := 0, probeReleased := false } := by
    simp [checkCameraPermissions, hm, hq]
  refine ⟨h1, ?_, by simp [h1]⟩
  rw [h1]
  simp [phase, ho, hr, hsc]

/-- Witness for claim C7 at a concrete denied-query environment. -/
theorem query_denied_no_acquisition_witness :
    checkCameraPermissions ⟨true, QueryOutcome.result "denied", GumOutcome.ok⟩
        { openProp := true, scannerRef := none, isScanning := false,
          error := none, permissionError := false, isRequestingPermission := false } =
      { state := { openProp := true, scannerRef := none, isScanning := false,
                   error := some deniedQueryMsg, permissionError := true,
                   isRequestingPermission := false },
        granted := false, gumCalls := 0, probeReleased := false } ∧
    phase (checkCameraPermissions ⟨true, QueryOutcome.result "denied", GumOutcome.ok⟩
        { openProp := true, scannerRef := none, isScanning := false,
          error := none, permissionError := false, isRequestingPermission := false }).state =
      Phase.PermissionDenied ∧
    (checkCameraPermissions ⟨true, QueryOutcome.result "denied", GumOutcome.ok⟩
        { openProp := true, scannerRef := none, isScanning := false,
          error := none, permissionError := false, isRequestingPermission := false }).gumCalls = 0 :=
  query_denied_no_acquisition _ _ (by decide) (by decide) (by decide) (by decide) (by decide)

/-- Claim C8: a getUserMedia rejection named NotReadableError or TrackStartError
leaves the permission flag down and produces the Error phase, not
PermissionDenied, with the distinct device-busy message, which contains the
text in use. -/
theorem device_busy_error (cam : CameraEnv) (s : ScannerState) (name msg : String)
    (hm : cam.mediaDevicesAvailable = true) (hq : queryDenied cam = false)
    (hg : cam.gum = GumOutcome.err name msg)
    (hn : name = "NotReadableError" ∨ name = "TrackStartError")
    (ho : s.openProp = true) (hsc : s.isScanning = false)
    (hp : s.permissionError = false) :
    (checkCameraPermissions cam s).state.error = some inUseMsg ∧
    strContains inUseMsg "in use" = true ∧
    (checkCameraPermissions cam s).state.permissionError = false ∧
    phase (checkCameraPermissions cam s).state = Phase.Error := by
  have h1 : checkCameraPermissions cam s =
      { state := classifyGumError name msg { s with isRequestingPermission := false },
        granted := false, gumCalls := 1, probeReleased := false } := by
    simp [checkCameraPermissions, hm, hq, hg]
  have h2 : classifyGumError name msg { s with isRequestingPermission := false } =
      { s with isRequestingPermission := false, error := some inUseMsg } := by
    rcases hn with rfl | rfl <;> simp [classifyGumError]
  rw [h1, h2]
  refine ⟨rfl, by decide, by simpa using hp, ?_⟩
  simp [phase, ho, hsc, hp]

/-- Witness for claim C8 at a concrete device-busy rejection. -/
theorem device_busy_error_witness :
    (checkCameraPermissions ⟨true, QueryOutcome.unavailable, GumOutcome.err "NotReadableError" ""⟩
        { openProp := true, scannerRef := none, isScanning := false,
          error := none, permissionError := false, isRequestingPermission := false }).state.error =
      some inUseMsg ∧
    strContains inUseMsg "in use" = true ∧
    (checkCameraPermissions ⟨true, QueryOutcome.unavailable, GumOutcome.err "NotReadableError" ""⟩
        { openProp := true, scannerRef := none, isScanning := false,
          error := none, permissionError := false, isRequestingPermission := false }).state.permissionError =
      false ∧
    phase (checkCameraPermissions ⟨true, QueryOutcome.unavailable, GumOutcome.err "NotReadableError" ""⟩
        { openProp := true, scannerRef := none, isScanning := false,
          error := none, permissionError := false, isRequestingPermission := false }).state =
      Phase.Error :=
  device_busy_error _ _ "NotReadableError" "" (by decide) (by decide) (by decide)
    (Or.inl rfl) (by decide) (by decide) (by decide)

/-- Claim C9: closing the session is valid from every state: stopScanning never
propagates an exception whatever the engine stop and clear calls do, the
session ends in the Idle phase, repeated closes are idempotent, the held stream
is released whenever the engine stop call itself succeeds, and on a fully
successful stop the scanner handle is cleared. -/
theorem close_safe (o : StopOutcome) (s : ScannerState) :
    (∃ s1, (stopScanningE o s).result = Except.ok s1 ∧ s1.isScanning = false) ∧
    phase (closeSession o s) = Phase.Idle ∧
    closeSession o (closeSession o s) = closeSession o s ∧
    (s.scannerRef.isSome = true → o ≠ StopOutcome.stopFailed →
      (stopScanningE o s).releasedStream = true) ∧
    (o = StopOutcome.ok → (stopScanningRun o s).scannerRef = none) := by
  rcases s with ⟨op, r, sc, e, p, q⟩
  cases o <;> rcases r with _ | u <;>
    simp [stopScanningE, stopScanningRun, closeSession, phase]

/-- Witness for claim C9 at a concrete scanning state with a succeeding stop. -/
theorem close_safe_witness :
    (stopScanningE StopOutcome.ok
        { openProp := true, scannerRef := some (), isScanning := true,
          error := none, permissionError := false, isRequestingPermission := false }).releasedStream =
      true ∧
    phase (closeSession StopOutcome.ok
        { openProp := true, scannerRef := some (), isScanning := true,
          error := none, permissionError := false, isRequestingPermission := false }) =
      Phase.Idle :=
  ⟨(close_safe StopOutcome.ok _).2.2.2.1 (by decide) (by decide),
    (close_safe StopOutcome.ok _).2.1⟩

end QRScan

namespace AdminGuard

/-- Claim C10: the admin route guard renders its children exactly when a
profile fetch completed successfully for a present token and reported isAdmin
true; with no stored token it redirects to login, on a failed fetch it clears
the token and redirects to login, and for a non-admin user it redirects to the
dashboard, the children staying hidden in all three cases. -/
theorem admin_route_guard (env : AdminEnv) :
    (rendersChildren (verifyAdmin env) = true ↔
      (∃ t, env.token = some t) ∧ env.profileResult = Except.ok ⟨true⟩) ∧
    (env.token = none →
      verifyAdmin env = ⟨true, some NavTarget.login, false⟩) ∧
    (∀ t, env.token = some t → env.profileResult = Except.error () →
      verifyAdmin env = ⟨true, some NavTarget.login, true⟩) ∧
    (∀ t, env.token = some t → env.profileResult = Except.ok ⟨false⟩ →
      verifyAdmin env = ⟨true, some NavTarget.dashboard, false⟩) := by
  rcases env with ⟨tok, res⟩
  rcases tok with _ | t
  · simp [verifyAdmin, rendersChildren]
  · rcases res with e | u
    · simp [verifyAdmin, rendersChildren]
    · rcases u with ⟨b⟩
      cases b <;> simp [verifyAdmin, rendersChildren]

/-- Witness for claim C10 in the no-token case. -/
theorem admin_route_guard_witness :
    verifyAdmin ⟨none, Except.ok ⟨true⟩⟩ =
      ⟨true, some NavTarget.login, false⟩ :=
  (admin_route_guard ⟨none, Except.ok ⟨true⟩⟩).2.1 rfl

end AdminGuard

